import Mathlib

/-!
Verification of the gesture/telemetry synchronization engine of the
`dedalus` dashboard: the event reducer, the bounded alert buffer, the
camera projector, the tool-expiry timer and the socket connection
lifecycle, shallowly embedded from
`src/dashboard/hooks/useGesture.ts` and the `HoloGlobe` component.
-/

namespace Dedalus

/-- Camera state (`CameraState` in `useGesture.ts`): latitude, longitude,
altitude, optional target name.  Numbers are embedded as rationals. -/
structure CameraState where
  lat : ℚ
  lon : ℚ
  altitude : ℚ
  targetName : Option String
deriving Repr, DecidableEq

/-- A dropped marker (`Marker` in `useGesture.ts`). -/
structure Marker where
  lat : ℚ
  lon : ℚ
  type : Option String
  timestamp : String
deriving Repr, DecidableEq

/-- The single ephemeral tool-execution record (`currentTool` payload). -/
structure ToolStatus where
  tool : String
  status : String
deriving Repr, DecidableEq

/-- An alert entry. -/
structure Alert where
  level : String
  message : String
  timestamp : String
deriving Repr, DecidableEq

/-- The tagged union of inbound wire messages.  The first eleven
constructors are the eleven declared kinds of `GestureEvent.type`;
`UNKNOWN` stands for a wire message whose `type` string is none of them
(the runtime `JSON.parse` performs no validation, so such messages do
reach the reducer's `switch`, where they hit no `case`).  Payload fields
mirror the `event.data` fields each `case` reads; `Option` marks fields
the code guards with a truthiness test. -/
inductive GEKind where
  | INIT (camera : Option CameraState) (markers : Option (List Marker))
  | MOVE (lat lon altitude : ℚ) (targetName : Option String)
  | SELECT (lat lon : ℚ) (markerType : Option String)
  | ZOOM
  | ROTATE
  | VOICE_START
  | VOICE_END
  | AGENT_SPEAK_START
  | AGENT_SPEAK_END
  | TOOL_EXECUTE (tool status : String)
  | ALERT (level message : String)
  | UNKNOWN (typeName : String)
deriving Repr, DecidableEq

/-- An inbound gesture event: a kind (with its payload) plus the
`timestamp` wire field. -/
structure GestureEvent where
  kind : GEKind
  timestamp : String
deriving Repr, DecidableEq

/-- The shared view state (`GestureState` in `useGesture.ts`).  The
`camera` field is embedded as an `Option` so that nullability is
expressible: the TypeScript annotation promises a non-null camera, and
the invariant theorems below prove the reducer indeed never makes it
null. -/
structure GestureState where
  isConnected : Bool
  camera : Option CameraState
  markers : List Marker
  isListening : Bool
  isSpeaking : Bool
  currentTool : Option ToolStatus
  alerts : List Alert
  lastEvent : Option GestureEvent
deriving Repr, DecidableEq

/-- The initial state passed to `useState` (lines 66-75). -/
def initState : GestureState where
  isConnected := false
  camera := some ⟨0, 0, 15000000, none⟩
  markers := []
  isListening := false
  isSpeaking := false
  currentTool := none
  alerts := []
  lastEvent := none

/-- The reducer body of `handleEvent` (lines 118-194): copy `prev` with
`lastEvent := event`, then dispatch on `event.type`.  `ZOOM` and
`ROTATE` are declared kinds with no `case`, so like `UNKNOWN` they fall
through the `switch` untouched.  `ALERT` prepends and keeps
`prev.alerts.slice(0, 4)`; `SELECT` appends to `prev.markers`; `INIT`
overwrites `camera` / `markers` only when the payload field is present
(truthy).  The 3-second timer scheduled by `TOOL_EXECUTE` is a side
effect modelled separately by `currentToolAt` below. -/
def applyEvent (prev : GestureState) (event : GestureEvent) : GestureState :=
  let newState := { prev with lastEvent := some event }
  match event.kind with
  | .INIT cam mks =>
      let s1 := match cam with
        | some c => { newState with camera := some c }
        | none => newState
      match mks with
      | some ms => { s1 with markers := ms }
      | none => s1
  | .MOVE lat lon altitude targetName =>
      { newState with camera := some ⟨lat, lon, altitude, targetName⟩ }
  | .SELECT lat lon markerType =>
      { newState with
          markers := prev.markers ++ [⟨lat, lon, markerType, event.timestamp⟩] }
  | .ZOOM => newState
  | .ROTATE => newState
  | .UNKNOWN _ => newState
  | .VOICE_START => { newState with isListening := true }
  | .VOICE_END => { newState with isListening := false }
  | .AGENT_SPEAK_START => { newState with isSpeaking := true }
  | .AGENT_SPEAK_END => { newState with isSpeaking := false }
  | .TOOL_EXECUTE tool status =>
      { newState with currentTool := some ⟨tool, status⟩ }
  | .ALERT level message =>
      { newState with
          alerts := ⟨level, message, event.timestamp⟩ :: prev.alerts.take 4 }

/-- Process a list of inbound events in arrival order (the single
consumer applies them one at a time). -/
def runEvents (s : GestureState) (es : List GestureEvent) : GestureState :=
  es.foldl applyEvent s

/-! ## Camera projector (`latLonToScreen` in the HoloGlobe component) -/

/-- Result of the projector: screen coordinates and the hemisphere
visibility flag. -/
structure ScreenPoint where
  x : ℚ
  y : ℚ
  visible : Bool
deriving Repr, DecidableEq

/-- `latLonToScreen` from the HoloGlobe component: center on the canvas,
offset by `adjustedLon = lon - camera.lon` (no normalization appears in
the source), scale linearly, and cull by `|adjustedLon| < 90`. -/
def latLonToScreen (width height cameraLon lat lon radius : ℚ) : ScreenPoint :=
  let centerX := width / 2
  let centerY := height / 2
  let adjustedLon := lon - cameraLon
  let adjustedLat := lat
  let x := centerX + (adjustedLon / 180) * radius
  let y := centerY - (adjustedLat / 90) * (radius / 2)
  let lonDiff := |adjustedLon|
  let visible := decide (lonDiff < 90)
  ⟨x, y, visible⟩

/-- Normalization of an angular offset into `(-180, 180]`, as the spec
describes it (the unique representative of `d` modulo 360 in that
interval).  This definition follows the spec's words, for comparison
with `latLonToScreen`, which the source code defines without it. -/
def normalizeDeltaLon (d : ℚ) : ℚ := d - 360 * ⌈(d - 180) / 360⌉

/-- Visibility as the spec describes it: normalize `lon - cameraLon`
into `(-180, 180]` and test `|Δlon| < 90`. -/
def visibleSpec (cameraLon lon : ℚ) : Bool :=
  decide (|normalizeDeltaLon (lon - cameraLon)| < 90)

/-! ## Tool-expiry timeline (TOOL_EXECUTE and its `setTimeout`)

Each `TOOL_EXECUTE` arrival sets `currentTool` to its payload and
schedules `setTimeout(() => setState(s => ({...s, currentTool: null})),
3000)` — an unconditional clear 3000 ms later (lines 170-179).  The
timeline below replays those actions in time order. -/

/-- A timed action on `currentTool`: `some p` is the assignment done by
a `TOOL_EXECUTE` arrival, `none` is the clear done by its timer. -/
abbrev ToolAction := ℕ × Option ToolStatus

/-- Insert an action keeping the list sorted by time (later-scheduled
actions with the same deadline stay behind earlier ones). -/
def insertByTime (a : ToolAction) : List ToolAction → List ToolAction
  | [] => [a]
  | b :: bs => if a.1 < b.1 then a :: b :: bs else b :: insertByTime a bs

/-- Sort a list of timed actions by time. -/
def sortByTime (l : List ToolAction) : List ToolAction :=
  l.foldl (fun acc a => insertByTime a acc) []

/-- The actions generated by a list of `TOOL_EXECUTE` arrivals
`(time, payload)`: each arrival assigns its payload at its arrival time
and its timer clears the record unconditionally 3000 ms later. -/
def toolActions (arrivals : List (ℕ × ToolStatus)) : List ToolAction :=
  arrivals.flatMap fun a => [(a.1, some a.2), (a.1 + 3000, none)]

/-- The value of `currentTool` at time `t`, given the `TOOL_EXECUTE`
arrival times and payloads: replay every action due by `t` in time
order over the initial `none`. -/
def currentToolAt (arrivals : List (ℕ × ToolStatus)) (t : ℕ) :
    Option ToolStatus :=
  (sortByTime ((toolActions arrivals).filter fun a => a.1 ≤ t)).foldl
    (fun _ a => a.2) none

/-- The tool indicator as the spec describes it: the latest arrival at
or before `t` is shown until 3000 ms after ITS OWN arrival; a timer of
a superseded record must not clear a newer one.  Defined from the
spec's words, for comparison with `currentToolAt`. -/
def specToolAt (arrivals : List (ℕ × ToolStatus)) (t : ℕ) :
    Option ToolStatus :=
  let past := arrivals.filter fun a => a.1 ≤ t
  match past.foldl (fun acc a =>
      match acc with
      | none => some a
      | some b => if b.1 ≤ a.1 then some a else some b) none with
  | some a => if t < a.1 + 3000 then some a.2 else none
  | none => none

/-! ## Connection lifecycle (`connect`, `ws.onclose`, the unmount
cleanup)

`connect` (lines 77-116) returns immediately when
`wsRef.current?.readyState === WebSocket.OPEN` and otherwise constructs
a fresh `WebSocket` and overwrites `wsRef.current`.  `ws.onclose`
(lines 88-96) unconditionally schedules `setTimeout(connect,
config.wsReconnectDelay)`.  The unmount cleanup (lines 221-226) clears
a pending reconnect timeout and calls `wsRef.current?.close()`; it
neither detaches `onclose` nor sets any torn-down flag. -/

/-- The four `WebSocket.readyState` values. -/
inductive ReadyState where
  | CONNECTING
  | OPEN
  | CLOSING
  | CLOSED
deriving Repr, DecidableEq

/-- The state `connect` sees and updates: the readyState of the socket
in `wsRef.current` (if any) and a count of sockets constructed so far. -/
structure WsRefState where
  current : Option ReadyState
  socketsCreated : ℕ
deriving Repr, DecidableEq

/-- The body of `connect` (lines 77-116): a no-op when the held socket's
readyState is `OPEN`; otherwise `new WebSocket(wsUrl)` (readyState
`CONNECTING`) is constructed and stored in `wsRef.current`. -/
def connectFn (s : WsRefState) : WsRefState :=
  if s.current = some ReadyState.OPEN then s
  else { current := some ReadyState.CONNECTING,
         socketsCreated := s.socketsCreated + 1 }

/-- State of the connection lifecycle for the teardown analysis:
whether a live socket is held, whether a `close` event awaits delivery
to `onclose`, whether a reconnect timeout is pending, whether the
unmount cleanup has run, and how many `connect()` invocations happened
after it ran. -/
structure ConnState where
  socketLive : Bool
  closeQueued : Bool
  timerPending : Bool
  tornDown : Bool
  connectsAfterTeardown : ℕ
deriving Repr, DecidableEq

/-- A `connect()` invocation in the lifecycle model: counted when the
cleanup has already run; creates a socket unless one is live (the
readyState check of lines 78). -/
def connInvoke (s : ConnState) : ConnState :=
  let s := if s.tornDown then
    { s with connectsAfterTeardown := s.connectsAfterTeardown + 1 } else s
  if s.socketLive then s else { s with socketLive := true }

/-- Scheduler steps of the lifecycle: delivery of a queued `close` event
to `ws.onclose`, firing of the pending reconnect timeout (whose callback
is `connect`), and the unmount cleanup. -/
inductive ConnLabel where
  | closeDelivers
  | timerFires
  | cleanup
deriving Repr, DecidableEq

/-- One scheduler step; `none` when the step is not enabled.
`closeDelivers` runs `ws.onclose` (lines 88-96): it schedules the
reconnect timeout unconditionally.  `timerFires` runs the pending
timeout's callback `connect`.  `cleanup` (lines 221-226) clears the
pending timeout and calls `close()` on the held socket, which queues a
`close` event for asynchronous delivery to the still-attached
`onclose`. -/
def connStep (s : ConnState) : ConnLabel → Option ConnState
  | .closeDelivers =>
      if s.closeQueued then
        some { s with closeQueued := false, timerPending := true }
      else none
  | .timerFires =>
      if s.timerPending then
        some (connInvoke { s with timerPending := false })
      else none
  | .cleanup =>
      if s.tornDown then none
      else some { s with
        timerPending := false
        closeQueued := s.closeQueued || s.socketLive
        socketLive := false
        tornDown := true }

/-- Run a sequence of scheduler steps; `none` if any step is not
enabled. -/
def runConn (s : ConnState) : List ConnLabel → Option ConnState
  | [] => some s
  | l :: ls => match connStep s l with
    | some s1 => runConn s1 ls
    | none => none

/-- A connected steady state: live socket, nothing queued or pending,
not torn down. -/
def connectedState : ConnState :=
  ⟨true, false, false, false, 0⟩

/-! ## Event classifiers -/

/-- Is this event an ALERT? -/
def isAlertEvent : GestureEvent → Bool
  | ⟨.ALERT _ _, _⟩ => true
  | _ => false

/-- Is this event a MOVE? -/
def isMoveEvent : GestureEvent → Bool
  | ⟨.MOVE _ _ _ _, _⟩ => true
  | _ => false

/-- Is this event a SELECT? -/
def isSelectEvent : GestureEvent → Bool
  | ⟨.SELECT _ _ _, _⟩ => true
  | _ => false

/-- Is this an INIT event carrying a markers payload (the one
transition that overwrites the marker list wholesale)? -/
def initReplacesMarkers : GestureEvent → Bool
  | ⟨.INIT _ (some _), _⟩ => true
  | _ => false

/-- The marker a SELECT event appends (empty for any other kind). -/
def selectMarker : GestureEvent → List Marker
  | ⟨.SELECT lat lon markerType, ts⟩ => [⟨lat, lon, markerType, ts⟩]
  | _ => []

/-! ## Theorems -/

/-- C1: the claim says the 3000 ms clear scheduled by a TOOL_EXECUTE
takes effect only if no newer TOOL_EXECUTE has replaced the record, so
after arrivals at t=0 and t=500 the record should still be non-null at
t=3000 and clear only at t=3500.  The code's timer clears
unconditionally: with arrivals at 0 and 500, `currentTool` is the second
payload at t=2999 but already `none` at t=3000, cleared by the first
arrival's timer, while the spec-described behavior (`specToolAt`) keeps
the second payload until t=3500. -/
theorem toolTimer_first_timer_clears_second_record :
    currentToolAt
        [(0, ⟨"deploy_team", "executing"⟩),
         (500, ⟨"calculate_supply_needs", "executing"⟩)] 2999
      = some ⟨"calculate_supply_needs", "executing"⟩
    ∧ currentToolAt
        [(0, ⟨"deploy_team", "executing"⟩),
         (500, ⟨"calculate_supply_needs", "executing"⟩)] 3000
      = none
    ∧ specToolAt
        [(0, ⟨"deploy_team", "executing"⟩),
         (500, ⟨"calculate_supply_needs", "executing"⟩)] 3000
      = some ⟨"calculate_supply_needs", "executing"⟩
    ∧ specToolAt
        [(0, ⟨"deploy_team", "executing"⟩),
         (500, ⟨"calculate_supply_needs", "executing"⟩)] 3500
      = none :=
  ⟨rfl, rfl, rfl, rfl⟩

/-- C2 counterexample: the claim says the angular offset is normalized
into `(-180°, 180°]` before the `|Δlon| < 90°` test.  The source
subtracts the longitudes with no normalization: for camera longitude
170 and target longitude -170 the normalized offset is 20, within 90,
yet the code reports the point not visible. -/
theorem latLonToScreen_hemisphere_mismatch :
    (latLonToScreen 800 600 170 0 (-170) 100).visible = false
    ∧ normalizeDeltaLon ((-170 : ℚ) - 170) = 20
    ∧ visibleSpec 170 (-170) = true := by
  have hceil : ⌈(((-170 : ℚ) - 170 - 180) / 360)⌉ = -1 := by
    rw [Int.ceil_eq_iff]
    norm_num
  have hnorm : normalizeDeltaLon ((-170 : ℚ) - 170) = 20 := by
    rw [normalizeDeltaLon, hceil]
    norm_num
  refine ⟨?_, hnorm, ?_⟩
  · simp only [latLonToScreen, decide_eq_false_iff_not]
    norm_num
  · rw [visibleSpec, hnorm, decide_eq_true_iff]
    norm_num

/-- C2 amended: the projector computes `Δlon = lon - camera.lon` with
no normalization and reports the point visible iff `|Δlon| < 90`; for
camera `{lat:0, lon:0}` the point `{lat:0, lon:45}` is visible and the
point `{lat:0, lon:135}` is not. -/
theorem latLonToScreen_visibility
    (width height cameraLon lat lon radius : ℚ) :
    ((latLonToScreen width height cameraLon lat lon radius).visible = true
      ↔ |lon - cameraLon| < 90)
    ∧ (latLonToScreen 800 600 0 0 45 100).visible = true
    ∧ (latLonToScreen 800 600 0 0 135 100).visible = false := by
  have key : ∀ w h c la lo r : ℚ,
      (latLonToScreen w h c la lo r).visible = true ↔ |lo - c| < 90 := by
    intro w h c la lo r
    simp [latLonToScreen]
  refine ⟨key _ _ _ _ _ _, ?_, ?_⟩
  · rw [key]
    norm_num
  · simp only [latLonToScreen, decide_eq_false_iff_not]
    norm_num

/-- C3: the claim says that after the unmount cleanup runs, no
`connect()` invocation is ever admitted again.  In the code the cleanup
clears the pending timeout and calls `close()`, but the still-attached
`onclose` handler runs when the close event is delivered and schedules
a fresh reconnect timeout whose callback is `connect`: the trace
cleanup, then close delivery, then timer firing is admitted and invokes
`connect()` once after teardown (and even opens a new socket). -/
theorem connect_invoked_after_cleanup :
    (runConn connectedState
        [.cleanup, .closeDelivers, .timerFires]).map
        (fun s => (s.tornDown, s.connectsAfterTeardown, s.socketLive))
      = some (true, 1, true) := rfl

/-- C4 counterexample: the claim says a message with an unrecognized
`type` leaves the entire view state, including `lastEvent`, unchanged.
The reducer assigns `lastEvent` before the `switch`, so even an
unrecognized message changes the state. -/
theorem unknown_event_changes_state :
    applyEvent initState ⟨.UNKNOWN "BOGUS", "t0"⟩ ≠ initState
    ∧ (applyEvent initState ⟨.UNKNOWN "BOGUS", "t0"⟩).lastEvent
        = some ⟨.UNKNOWN "BOGUS", "t0"⟩ :=
  ⟨by decide, rfl⟩

/-- C4 amended: a message whose `type` is not one of the eleven
recognized kinds falls through the `switch` and is otherwise ignored:
every field except `lastEvent` is unchanged, and `lastEvent` records
the message. -/
theorem unknown_event_only_updates_lastEvent
    (s : GestureState) (name ts : String) :
    applyEvent s ⟨.UNKNOWN name, ts⟩
      = { s with lastEvent := some ⟨.UNKNOWN name, ts⟩ } := rfl

/-- C5 counterexample: the claim says `connect()` is a no-op while a
connection is open or opening.  The code only returns early on
readyState `OPEN`; while the held socket is still `CONNECTING` a call
constructs a second `WebSocket` and overwrites the ref. -/
theorem connect_while_connecting_not_noop :
    connectFn ⟨some ReadyState.CONNECTING, 1⟩
      ≠ (⟨some ReadyState.CONNECTING, 1⟩ : WsRefState)
    ∧ (connectFn ⟨some ReadyState.CONNECTING, 1⟩).socketsCreated = 2 :=
  ⟨by decide, rfl⟩

/-- C5 amended: `connect()` is idempotent only while a connection is
open (readyState `OPEN`): then it returns immediately, leaving the ref
untouched and creating no second socket.  While the socket is still
opening it creates a second one. -/
theorem connect_noop_when_open (s : WsRefState)
    (h : s.current = some ReadyState.OPEN) : connectFn s = s := by
  simp [connectFn, h]

/-- Witness for `connect_noop_when_open` at a concrete open-socket
state. -/
theorem connect_noop_when_open_witness :
    (⟨some ReadyState.OPEN, 1⟩ : WsRefState).current = some ReadyState.OPEN
    ∧ connectFn ⟨some ReadyState.OPEN, 1⟩ = ⟨some ReadyState.OPEN, 1⟩ :=
  ⟨rfl, connect_noop_when_open ⟨some ReadyState.OPEN, 1⟩ rfl⟩

/-- C6 counterexample: the claim says the marker list never loses an
entry under any inbound event.  An INIT whose payload carries a markers
field overwrites the list wholesale (an empty array is truthy, so the
guard does not save it): after a SELECT the list has one marker, and a
following `INIT` with `markers: []` empties it. -/
theorem init_event_shrinks_markers :
    (runEvents initState [⟨.SELECT 1 2 none, "t0"⟩]).markers.length = 1
    ∧ (runEvents initState
        [⟨.SELECT 1 2 none, "t0"⟩,
         ⟨.INIT none (some []), "t1"⟩]).markers.length = 0 :=
  ⟨rfl, rfl⟩

/-- C6 amended: the marker list is monotonically non-decreasing under
every inbound event except an INIT carrying a markers payload (which
replaces the list wholesale): for every other event the previous
markers stay a prefix of the new list, so nothing is removed and the
length cannot decrease. -/
theorem markers_monotone_except_init (s : GestureState) (e : GestureEvent)
    (h : initReplacesMarkers e = false) :
    s.markers <+: (applyEvent s e).markers := by
  obtain ⟨k, ts⟩ := e
  cases k with
  | INIT cam mks =>
    cases mks with
    | some ms => exact Bool.noConfusion h
    | none => cases cam <;> exact List.prefix_refl _
  | SELECT lat lon markerType => exact List.prefix_append _ _
  | MOVE a b c d => exact List.prefix_refl _
  | ZOOM => exact List.prefix_refl _
  | ROTATE => exact List.prefix_refl _
  | VOICE_START => exact List.prefix_refl _
  | VOICE_END => exact List.prefix_refl _
  | AGENT_SPEAK_START => exact List.prefix_refl _
  | AGENT_SPEAK_END => exact List.prefix_refl _
  | TOOL_EXECUTE t st => exact List.prefix_refl _
  | ALERT lv msg => exact List.prefix_refl _
  | UNKNOWN n => exact List.prefix_refl _

/-- Witness for `markers_monotone_except_init`: a SELECT event applied
to the initial state. -/
theorem markers_monotone_except_init_witness :
    initReplacesMarkers ⟨.SELECT 1 2 none, "t"⟩ = false
    ∧ initState.markers
        <+: (applyEvent initState ⟨.SELECT 1 2 none, "t"⟩).markers :=
  ⟨rfl, markers_monotone_except_init initState ⟨.SELECT 1 2 none, "t"⟩ rfl⟩

/-- One reducer step keeps the alert buffer within 5 entries (ALERT
prepends one entry to `prev.alerts.slice(0, 4)`; no other branch
touches `alerts`). -/
theorem applyEvent_alerts_length_le (s : GestureState) (e : GestureEvent)
    (h : s.alerts.length ≤ 5) : (applyEvent s e).alerts.length ≤ 5 := by
  obtain ⟨k, ts⟩ := e
  cases k <;> try exact h
  case INIT cam mks => cases cam <;> cases mks <;> exact h
  case ALERT lv msg =>
    show (_ :: s.alerts.take 4).length ≤ 5
    simp [List.length_take]

/-- The alert-buffer bound holds along any run. -/
theorem runEvents_alerts_length_le (s : GestureState)
    (es : List GestureEvent) (h : s.alerts.length ≤ 5) :
    (runEvents s es).alerts.length ≤ 5 := by
  induction es generalizing s with
  | nil => exact h
  | cons e es ih => exact ih _ (applyEvent_alerts_length_le s e h)

/-- Non-ALERT events do not touch the alert buffer. -/
theorem applyEvent_alerts_of_not_alert (s : GestureState) (e : GestureEvent)
    (h : isAlertEvent e = false) : (applyEvent s e).alerts = s.alerts := by
  obtain ⟨k, ts⟩ := e
  cases k <;> try rfl
  case INIT cam mks => cases cam <;> cases mks <;> rfl
  case ALERT lv msg => exact Bool.noConfusion h

/-- A run containing no ALERT leaves the alert buffer unchanged. -/
theorem runEvents_alerts_of_no_alert (s : GestureState)
    (es : List GestureEvent) (h : ∀ x ∈ es, isAlertEvent x = false) :
    (runEvents s es).alerts = s.alerts := by
  induction es generalizing s with
  | nil => rfl
  | cons e es ih =>
    have he := h e (List.mem_cons_self e es)
    have ht : ∀ x ∈ es, isAlertEvent x = false :=
      fun x hx => h x (List.mem_cons_of_mem e hx)
    calc (runEvents (applyEvent s e) es).alerts
        = (applyEvent s e).alerts := ih (applyEvent s e) ht
      _ = s.alerts := applyEvent_alerts_of_not_alert s e he

/-- C7: along every run from the initial state the alert buffer holds
at most 5 entries; after an ALERT followed only by non-ALERT events,
`alerts[0]` is the alert built from that most recent ALERT; and an
ALERT applied to a full buffer of 5 prepends the new alert and evicts
exactly the oldest (last) entry. -/
theorem alerts_ring_buffer_of_five
    (es tail : List GestureEvent) (e : GestureEvent) (lv msg : String)
    (hk : e.kind = .ALERT lv msg)
    (ht : ∀ x ∈ tail, isAlertEvent x = false) :
    (runEvents initState es).alerts.length ≤ 5
    ∧ (runEvents initState (es ++ e :: tail)).alerts.head?
        = some ⟨lv, msg, e.timestamp⟩
    ∧ (∀ s : GestureState, s.alerts.length = 5 →
        (applyEvent s e).alerts
          = ⟨lv, msg, e.timestamp⟩ :: s.alerts.dropLast) := by
  obtain ⟨k, ts⟩ := e
  change k = GEKind.ALERT lv msg at hk
  subst hk
  refine ⟨runEvents_alerts_length_le initState es (by exact Nat.zero_le 5),
    ?_, ?_⟩
  · have hmid : runEvents initState (es ++ ⟨GEKind.ALERT lv msg, ts⟩ :: tail)
        = runEvents
            (applyEvent (runEvents initState es) ⟨GEKind.ALERT lv msg, ts⟩)
            tail := by
      simp [runEvents, List.foldl_append]
    rw [hmid, runEvents_alerts_of_no_alert _ tail ht]
    rfl
  · intro s hlen
    show (⟨lv, msg, ts⟩ : Alert) :: s.alerts.take 4
        = ⟨lv, msg, ts⟩ :: s.alerts.dropLast
    rw [List.dropLast_eq_take, hlen]

/-- Witness for `alerts_ring_buffer_of_five`: one ALERT event, empty
surrounding sequences. -/
theorem alerts_ring_buffer_of_five_witness :
    ((⟨GEKind.ALERT "info" "m", "t"⟩ : GestureEvent).kind
        = GEKind.ALERT "info" "m")
    ∧ (runEvents initState
          ([] ++ (⟨GEKind.ALERT "info" "m", "t"⟩ : GestureEvent) :: [])
        ).alerts.head? = some ⟨"info", "m", "t"⟩ :=
  ⟨rfl,
    (alerts_ring_buffer_of_five [] [] ⟨GEKind.ALERT "info" "m", "t"⟩
      "info" "m" rfl (fun x hx => nomatch hx)).2.1⟩

/-- C8: applying any sequence of MOVE events ending in a MOVE with
payload `{lat, lon, altitude, targetName}` leaves the camera equal to
exactly that last payload, a wholesale replacement with no field merged
from the previous camera. -/
theorem camera_equals_last_move
    (s : GestureState) (es : List GestureEvent) (e : GestureEvent)
    (lat lon altitude : ℚ) (targetName : Option String)
    (hall : ∀ x ∈ es ++ [e], isMoveEvent x = true)
    (hk : e.kind = .MOVE lat lon altitude targetName) :
    (runEvents s (es ++ [e])).camera
      = some ⟨lat, lon, altitude, targetName⟩ := by
  obtain ⟨k, ts⟩ := e
  change k = GEKind.MOVE lat lon altitude targetName at hk
  subst hk
  simp [runEvents, List.foldl_append, applyEvent]

/-- Witness for `camera_equals_last_move`: two MOVE events; the camera
is the second payload. -/
theorem camera_equals_last_move_witness :
    (runEvents initState
        ([⟨GEKind.MOVE 1 2 3 none, "t0"⟩]
          ++ [⟨GEKind.MOVE 4 5 6 (some "LA"), "t1"⟩])).camera
      = some ⟨4, 5, 6, some "LA"⟩ :=
  camera_equals_last_move initState [⟨GEKind.MOVE 1 2 3 none, "t0"⟩]
    ⟨GEKind.MOVE 4 5 6 (some "LA"), "t1"⟩ 4 5 6 (some "LA")
    (by
      intro x hx
      simp only [List.mem_append, List.mem_singleton, List.mem_cons,
        List.not_mem_nil, or_false] at hx
      rcases hx with h | h <;> rw [h] <;> rfl)
    rfl

/-- A SELECT event appends exactly one marker. -/
theorem selectMarker_length_one (e : GestureEvent)
    (h : isSelectEvent e = true) : (selectMarker e).length = 1 := by
  obtain ⟨k, ts⟩ := e
  cases k <;> first | rfl | exact Bool.noConfusion h

/-- A run of SELECT events appends their markers in arrival order. -/
theorem runEvents_markers_selects (s : GestureState)
    (es : List GestureEvent) (hall : ∀ x ∈ es, isSelectEvent x = true) :
    (runEvents s es).markers = s.markers ++ es.flatMap selectMarker := by
  induction es generalizing s with
  | nil => simp [runEvents]
  | cons e es ih =>
    have he := hall e (List.mem_cons_self e es)
    have ht : ∀ x ∈ es, isSelectEvent x = true :=
      fun x hx => hall x (List.mem_cons_of_mem e hx)
    obtain ⟨k, ts⟩ := e
    cases k <;> try exact Bool.noConfusion he
    case SELECT lat lon markerType =>
      show (runEvents (applyEvent s ⟨GEKind.SELECT lat lon markerType, ts⟩)
          es).markers = _
      rw [ih _ ht]
      simp [applyEvent, selectMarker]

/-- With every event a SELECT, the appended markers number exactly one
per event. -/
theorem flatMap_selectMarker_length (es : List GestureEvent)
    (hall : ∀ x ∈ es, isSelectEvent x = true) :
    (es.flatMap selectMarker).length = es.length := by
  induction es with
  | nil => rfl
  | cons e es ih =>
    have he := hall e (List.mem_cons_self e es)
    have ht : ∀ x ∈ es, isSelectEvent x = true :=
      fun x hx => hall x (List.mem_cons_of_mem e hx)
    simp [List.flatMap_cons, selectMarker_length_one e he, ih ht]
    omega

/-- C9: a sequence of N SELECT events appends exactly its N markers, in
arrival order, after the pre-existing ones (so none is removed or
replaced), and the marker count grows by exactly N. -/
theorem select_appends_markers (s : GestureState)
    (es : List GestureEvent) (hall : ∀ x ∈ es, isSelectEvent x = true) :
    (runEvents s es).markers = s.markers ++ es.flatMap selectMarker
    ∧ (runEvents s es).markers.length = s.markers.length + es.length := by
  have h1 := runEvents_markers_selects s es hall
  refine ⟨h1, ?_⟩
  rw [h1, List.length_append, flatMap_selectMarker_length es hall]

/-- Witness for `select_appends_markers`: two SELECT events from the
initial state. -/
theorem select_appends_markers_witness :
    (runEvents initState
        [⟨GEKind.SELECT 1 2 (some "pin"), "t0"⟩,
         ⟨GEKind.SELECT 3 4 none, "t1"⟩]).markers
      = initState.markers
        ++ ([⟨GEKind.SELECT 1 2 (some "pin"), "t0"⟩,
             ⟨GEKind.SELECT 3 4 none, "t1"⟩] :
            List GestureEvent).flatMap selectMarker
    ∧ (runEvents initState
        [⟨GEKind.SELECT 1 2 (some "pin"), "t0"⟩,
         ⟨GEKind.SELECT 3 4 none, "t1"⟩]).markers.length
      = initState.markers.length + 2 :=
  select_appends_markers initState
    [⟨GEKind.SELECT 1 2 (some "pin"), "t0"⟩, ⟨GEKind.SELECT 3 4 none, "t1"⟩]
    (by
      intro x hx
      simp only [List.mem_cons, List.not_mem_nil, or_false] at hx
      rcases hx with rfl | rfl <;> rfl)

/-- No reducer branch can null the camera: INIT only overwrites it when
the payload actually carries one, MOVE always writes a full record, and
every other branch leaves it alone. -/
theorem applyEvent_camera_isSome (s : GestureState) (e : GestureEvent)
    (h : s.camera.isSome = true) : (applyEvent s e).camera.isSome = true := by
  obtain ⟨k, ts⟩ := e
  cases k <;> try exact h
  case INIT cam mks =>
    cases cam <;> cases mks <;> first | exact h | rfl
  case MOVE a b c d => rfl

/-- C10: the state starts with the default camera
`{lat: 0, lon: 0, altitude: 15000000}` (no target name), and along
every event sequence the camera remains populated — it is never null,
even before the first INIT. -/
theorem camera_never_null :
    initState.camera = some ⟨0, 0, 15000000, none⟩
    ∧ ∀ es : List GestureEvent,
        ((runEvents initState es).camera).isSome = true := by
  refine ⟨rfl, ?_⟩
  have key : ∀ (es : List GestureEvent) (s : GestureState),
      s.camera.isSome = true → ((runEvents s es).camera).isSome = true := by
    intro es
    induction es with
    | nil => intro s h; exact h
    | cons e es ih => intro s h; exact ih _ (applyEvent_camera_isSome s e h)
  exact fun es => key es initState rfl

end Dedalus
